import Mathlib

/-!
# Request dispatch and step control of the Lua debugger (`src/dbg_request.cpp`)

A shallow embedding of `vscode::debugger_impl` as far as `dbg_request.cpp` defines it:
the debugger state machine, the step anchor, and the DAP request handlers.  Every
message a handler sends is appended to the field `sent`, so that the order of responses
and events can be stated.  The Lua VM, the JSON reader, the path utilities and the
variable materialisation live outside this file of the repository and are taken as
data (`lua_State`) or as functions (`host`).
-/

namespace vscode

/-! ## Machine integers -/

/-- Least value of the C++ `int`. -/
def INT_MIN : Int := -2147483648

/-- Greatest value of the C++ `int`. -/
def INT_MAX : Int := 2147483647

/-- Result of an `int` operation, reduced to 32 bits in two's complement. -/
def wrap_int (x : Int) : Int := (x + 2147483648) % 4294967296 - 2147483648

/-! ## Data model -/

/-- The enumeration `state` of the debugger. -/
inductive state where
  | birth
  | initialized
  | stepping
  | running
  | terminated
  deriving DecidableEq, Repr

/-- The enumeration `step`; the source's `step::in` is written `in_`. -/
inductive step where
  | in_
  | over
  | out
  deriving DecidableEq, Repr

/-- A rapidjson value, as the handlers read it. -/
inductive json where
  | null
  | bool (b : Bool)
  | int (i : Int)
  | str (s : String)
  | arr (a : List json)
  | obj (m : List (String × json))

namespace json

/-- Member lookup in the member list of an object. -/
def find (k : String) : List (String × json) → Option json
  | [] => none
  | (k', v) :: rest => if k' = k then some v else find k rest

/-- The method `HasMember`. -/
def HasMember (v : json) (k : String) : Bool :=
  match v with
  | obj m => (find k m).isSome
  | _ => false

/-- The subscript `v[k]`; a missing member reads as the null value (what rapidjson
returns once its assertion is compiled out). -/
def get (v : json) (k : String) : json :=
  match v with
  | obj m => (find k m).getD null
  | _ => null

/-- The method `IsString`. -/
def IsString : json → Bool
  | str _ => true
  | _ => false

/-- The method `IsBool`. -/
def IsBool : json → Bool
  | bool _ => true
  | _ => false

/-- The method `GetBool`. -/
def GetBool : json → Bool
  | bool b => b
  | _ => false

/-- The method `GetInt`; on a value that is no integer the source asserts, read here as 0. -/
def GetInt : json → Int
  | int i => i
  | _ => 0

/-- The method `Get<std::string>`; on a value that is no string the source asserts, read
here as the empty string. -/
def GetString : json → String
  | str s => s
  | _ => ""

/-- The comparison `v == "text"` of a value with a C string. -/
def is_str (v : json) (t : String) : Bool :=
  match v with
  | str s => decide (s = t)
  | _ => false

/-- The method `GetArray`. -/
def GetArray : json → List json
  | arr a => a
  | _ => []

end json

/-- A Lua activation record as `lua_getstack` and `lua_getinfo` report it. -/
structure lua_Debug where
  /-- The chunk name `entry.source`. -/
  source : String
  /-- The address of the `source` buffer, `(intptr_t)src`. -/
  source_ptr : Int
  /-- The function name `entry.name`, null when Lua knows none. -/
  name : Option String
  currentline : Int
  isvararg : Bool

/-- A Lua VM instance as the handlers see it. -/
structure lua_State where
  /-- The address of the instance; 0 is the null pointer. -/
  ptr : Nat
  /-- The call stack, level 0 (the running function) first. -/
  frames : List lua_Debug
  /-- The global `package.path`. -/
  package_path : String
  /-- The global `package.cpath`. -/
  package_cpath : String

/-- The call `lua_getstack(L, depth, &entry)`: the frame at that level, none (the call
returns 0) when the level is negative or beyond the stack. -/
def lua_getstack (L : lua_State) (depth : Int) : Option lua_Debug :=
  if depth < 0 then none else L.frames.get? depth.toNat

/-- One element of `stack_`. -/
structure stack_entry where
  depth : Int
  reference : Int
  deriving DecidableEq, Repr

/-- Modelled from the spec: the class `watchs` behind `watch_` (its source is not part of
this file of the repository). Slots are numbered from 1, slot 0 is invalid, `add` hands
out the next slot and `get` finds a slot that has been handed out. -/
structure watchs where
  size : Nat
  deriving DecidableEq, Repr

/-- Modelled from the spec: `watch_.get(slot)`, true when the slot holds a pinned value. -/
def watchs.get (w : watchs) (slot : Int) : Bool :=
  decide (0 < slot ∧ slot ≤ (w.size : Int))

/-- Modelled from the spec: `watch_.add()`, the table with one more slot and its number. -/
def watchs.add (w : watchs) : watchs × Nat :=
  ({ size := w.size + 1 }, w.size + 1)

/-- Modelled from the spec: the values of `enum class var_type` (declared in
`dbg_variables.h`, which is not among the sources). -/
def var_type.local_ : Int := 1

/-- Modelled from the spec: `var_type::vararg`. -/
def var_type.vararg : Int := 2

/-- Modelled from the spec: `var_type::upvalue`. -/
def var_type.upvalue : Int := 3

/-- Modelled from the spec: `var_type::global`. -/
def var_type.global : Int := 4

/-- Modelled from the spec: `var_type::standard`. -/
def var_type.standard : Int := 5

/-- Modelled from the spec: `var_type::watch`. -/
def var_type.watch : Int := 6

/-- The `source` object of a stack frame in a stackTrace response. -/
structure frame_source where
  name : Option String
  path : Option String
  sourceReference : Int

/-- One element of `stackFrames`. -/
structure stack_frame where
  source : Option frame_source
  id : Int
  column : Int
  name : String
  line : Int

/-- One element of `scopes`. -/
structure scope where
  name : String
  variablesReference : Int
  expensive : Bool
  deriving DecidableEq, Repr

/-- The body a handler writes into a success response. -/
inductive body where
  | empty
  | stack_trace (stackFrames : List stack_frame) (totalFrames : Int)
  | breakpoints (path : String) (lines : List Nat)
  | scopes (scopes : List scope)
  /-- The variables materialised by `variables resv(res, L, ar, n); resv.push_value(type,
  depth, payload)`. -/
  | variables (n : Int) (type : Int) (depth : Int) (payload : Int)
  | value (value : String)
  | evaluate (result : String) (variablesReference : Int)

/-- What the debugger sends or does to its surroundings. -/
inductive output where
  | response_initialized (req : json)
  | response_success (req : json) (b : body)
  | response_error (req : json) (message : String)
  | response_thread (req : json)
  | response_source (req : json) (content : String)
  | event_initialized
  | event_terminated
  | event_thread (started : Bool)
  | event_stopped (reason : String)
  | event_output (category : String) (text : String)
  /-- The call `open()`. -/
  | open_
  /-- The call `close()`. -/
  | close_
  /-- The call `network_->close_session()`. -/
  | close_session

/-- A sent message together with the value `state_` had when it was sent. -/
structure emitted where
  msg : output
  at_state : state

/-- Modelled from the spec: the breakpoint table behind `breakpoints_` (class in
`dbg_breakpoint`, not among the sources): per source path, the lines with their optional
condition. -/
structure breakpoint where
  breaks : List (String × List (Nat × Option String))

/-- Modelled from the spec: `breakpoints_.clear(path)` drops every breakpoint of the source. -/
def breakpoint.clear (b : breakpoint) (path : String) : breakpoint :=
  { breaks := b.breaks.filter (fun e => e.1 != path) }

/-- Modelled from the spec: `breakpoints_.insert(path, line, condition)`. -/
def breakpoint.insert (b : breakpoint) (path : String) (line : Nat)
    (condition : Option String) : breakpoint :=
  match b.breaks.find? (fun e => e.1 == path) with
  | some e =>
    { breaks := (path, e.2.filter (fun l => l.1 != line) ++ [(line, condition)]) ::
        b.breaks.filter (fun e => e.1 != path) }
  | none => { breaks := (path, [(line, condition)]) :: b.breaks }

/-- The members of `debugger_impl` that `dbg_request.cpp` reads or writes. -/
structure debugger_impl where
  state_ : state
  step_ : step
  stepping_stacklevel_ : Int
  /-- A `lua_State*`, kept as the address. -/
  stepping_lua_state_ : Nat
  stacklevel_ : Int
  workingdir_ : String
  /-- The current directory of the process, `fs::current_path`. -/
  current_path : String
  stack_ : List stack_entry
  watch_ : watchs
  breakpoints_ : breakpoint
  /-- The member `GL`, the VM the debugger launches into. -/
  GL_ : lua_State
  /-- Everything sent so far, oldest first. -/
  sent : List emitted

/-! ## Bit operations on `int64_t` -/

/-- The expression `x & 0xFF` on a two's complement integer. -/
def low_byte (x : Int) : Int := x % 256

/-- The expression `x >> n` (arithmetic shift). -/
def shift_right (x : Int) (n : Nat) : Int := x >>> n

/-- The expression `x << n`. -/
def shift_left (x : Int) (n : Nat) : Int := x * 2 ^ n

/-- The expression `a | b`. -/
def bit_or (a b : Int) : Int := Int.lor a b

/-! ## Host functions -/

/-- The enumeration `custom::result`, spelled as the source spells it. -/
inductive custom_result where
  | sucess
  | sucess_once
  | failed
  deriving DecidableEq, Repr

/-- One value an evaluation left on the Lua stack: its text (`variable::value`) and
whether it is a table. -/
structure eval_value where
  value : String
  is_table : Bool

/-- What running the launched chunk under `lua_pcall` leaves behind: the debugger as the
hook callbacks left it, with `sent` holding only what they sent during the run, and the
error message when the call failed. -/
structure pcall_result where
  hooked : debugger_impl
  error : Option String

/-- The functions `dbg_request.cpp` calls and does not define. -/
structure host where
  /-- The call `luaL_loadfile` from the given current directory: none is `LUA_OK`,
  otherwise the error message left on the stack. -/
  luaL_loadfile : String → String → Option String
  lua_pcall : debugger_impl → pcall_result
  is_complete : String → Bool
  path_uncomplete : String → String → String
  complete : String → String → String
  filename : String → String
  /-- The call `pathconvert_.get_or_eval(src, client_path, *custom_)`. -/
  get_or_eval : String → custom_result × String
  /-- The call `evaluate(L, &current, script, nresult, repl)`: the values left on the
  stack, first result first, or the error message. -/
  evaluate : lua_State → lua_Debug → String → Bool → Except String (List eval_value)
  /-- The call `variables::set_value(L, &entry, type, depth, payload, name, value)`: the
  value text on success. -/
  set_value : lua_State → lua_Debug → Int → Int → Int → String → String → Option String

/-- Whether the message goes to the client: responses and events do, the calls `open()`,
`close()` and `close_session()` do not. -/
def client_visible : output → Bool
  | output.open_ => false
  | output.close_ => false
  | output.close_session => false
  | _ => true

/-! ## State machine and step control -/

/-- Appends a message to what has been sent. -/
def emit (o : output) (s : debugger_impl) : debugger_impl :=
  { s with sent := s.sent ++ [⟨o, s.state_⟩] }

/-- The function `get_path`: the string in lower case (the source asserts that the value
is a string). -/
def get_path (value : json) : String :=
  String.mk (value.GetString.data.map Char.toLower)

/-- The method `debugger_impl::set_state`. -/
def set_state (st : state) (s : debugger_impl) : debugger_impl :=
  if s.state_ = st then s
  else
    let s := { s with state_ := st }
    match st with
    | state.initialized =>
      s |> emit output.event_initialized
        |> emit output.open_
        |> emit (output.event_output "console" "Debugger initialized\n")
    | state.terminated =>
      s |> emit output.event_terminated
        |> emit output.close_
    | _ => s

/-- The method `debugger_impl::is_state`. -/
def is_state (st : state) (s : debugger_impl) : Bool :=
  decide (s.state_ = st)

/-- The method `debugger_impl::set_step`. -/
def set_step (st : step) (s : debugger_impl) : debugger_impl :=
  { s with step_ := st }

/-- The method `debugger_impl::is_step`. -/
def is_step (st : step) (s : debugger_impl) : Bool :=
  decide (s.step_ = st)

/-- The method `debugger_impl::step_in`. -/
def step_in (s : debugger_impl) : debugger_impl :=
  let s := set_state state.stepping s
  let s := set_step step.in_ s
  { s with stepping_stacklevel_ := -1000, stepping_lua_state_ := 0 }

/-- The method `debugger_impl::step_over`. -/
def step_over (L : lua_State) (s : debugger_impl) : debugger_impl :=
  let s := set_state state.stepping s
  let s := set_step step.over s
  { s with stepping_stacklevel_ := s.stacklevel_, stepping_lua_state_ := L.ptr }

/-- The method `debugger_impl::step_out`. -/
def step_out (L : lua_State) (s : debugger_impl) : debugger_impl :=
  let s := set_state state.stepping s
  let s := set_step step.out s
  { s with stepping_stacklevel_ := wrap_int (s.stacklevel_ - 1), stepping_lua_state_ := L.ptr }

/-- The method `debugger_impl::check_step`. -/
def check_step (L : lua_State) (s : debugger_impl) : Bool :=
  decide (s.stepping_lua_state_ = L.ptr) && decide (s.stepping_stacklevel_ ≥ s.stacklevel_)

/-! ## Request handlers

Each handler takes the request and the debugger and gives back the boolean it returns
together with the debugger it leaves. -/

/-- The method request_initialize of `debugger_impl`. -/
def request_initialize (req : json) (s : debugger_impl) : Bool × debugger_impl :=
  if !is_state state.birth s then
    (false, emit (output.response_error req "already initialized") s)
  else
    let s := emit (output.response_initialized req) s
    let s := set_state state.initialized s
    (false, s)

/-- The method `debugger_impl::request_launch`. The call `fs::current_path(workingdir_)`
is taken to succeed, and the Lua stack the handler pushes to and pops from is left out. -/
def request_launch (h : host) (req : json) (s : debugger_impl) : Bool × debugger_impl :=
  if !is_state state.initialized s then
    (false, emit (output.response_error req "not initialized or unexpected state") s)
  else
    let args := req.get "arguments"
    if !args.HasMember "program" || !(args.get "program").IsString then
      (false, emit (output.response_error req "Launch failed") s)
    else
      let stopOnEntry :=
        if args.HasMember "stopOnEntry" && (args.get "stopOnEntry").IsBool then
          (args.get "stopOnEntry").GetBool
        else true
      let s :=
        if args.HasMember "path" && (args.get "cpath").IsString then
          { s with GL_ := { s.GL_ with package_path := get_path (args.get "path") } }
        else s
      let s :=
        if args.HasMember "cpath" && (args.get "cpath").IsString then
          { s with GL_ := { s.GL_ with package_cpath := get_path (args.get "cpath") } }
        else s
      let s :=
        if args.HasMember "cwd" && (args.get "cwd").IsString then
          { s with workingdir_ := get_path (args.get "cwd"),
                   current_path := get_path (args.get "cwd") }
        else s
      let program := get_path (args.get "program")
      match h.luaL_loadfile s.current_path program with
      | some err =>
        let s := emit (output.event_output "console"
          ("Failed to launch " ++ program ++ " due to error: " ++ err ++ "\n")) s
        let s := emit (output.response_error req "Launch failed") s
        (false, s)
      | none =>
        let s := emit (output.response_success req body.empty) s
        let s := emit (output.event_thread true) s
        let s :=
          if stopOnEntry then
            s |> set_state state.stepping |> emit (output.event_stopped "entry")
          else
            set_state state.running s
        let s := emit output.open_ s
        let r := h.lua_pcall s
        let s := { r.hooked with sent := s.sent ++ r.hooked.sent }
        let s :=
          match r.error with
          | some err =>
            emit (output.event_output "console"
              ("Program terminated with error: " ++ err ++ "\n")) s
          | none => s
        let s := set_state state.terminated s
        (false, s)

/-- The method `debugger_impl::request_attach`. The call `fs::current_path(workingdir_)`
is taken to succeed. -/
def request_attach (req : json) (s : debugger_impl) : Bool × debugger_impl :=
  if !is_state state.initialized s then
    (false, emit (output.response_error req "not initialized or unexpected state") s)
  else
    let args := req.get "arguments"
    if !args.HasMember "program" || !(args.get "program").IsString then
      (false, emit (output.response_error req "Launch failed") s)
    else
      let stopOnEntry :=
        if args.HasMember "stopOnEntry" && (args.get "stopOnEntry").IsBool then
          (args.get "stopOnEntry").GetBool
        else true
      let s :=
        if args.HasMember "cwd" && (args.get "cwd").IsString then
          { s with workingdir_ := get_path (args.get "cwd"),
                   current_path := get_path (args.get "cwd") }
        else s
      let s := emit (output.response_success req body.empty) s
      let s := emit (output.event_thread true) s
      let s :=
        if stopOnEntry then
          s |> set_state state.stepping |> emit (output.event_stopped "entry")
        else
          set_state state.running s
      let s := emit output.open_ s
      (!stopOnEntry, s)

/-- The method `debugger_impl::request_thread`. -/
def request_thread (req : json) (s : debugger_impl) : Bool × debugger_impl :=
  (false, emit (output.response_thread req) s)

/-- The function `ensure_value_fits_in_mantissa`: the value itself. The source asserts
`sourceReference <= 9007199254740991` and changes nothing. -/
def ensure_value_fits_in_mantissa (sourceReference : Int) : Int :=
  sourceReference

/-- The condition `ensure_value_fits_in_mantissa` asserts. -/
def fits_in_mantissa (sourceReference : Int) : Bool :=
  decide (sourceReference ≤ 9007199254740991)

/-- Whether the chunk name is neither a file (`@`), nor a named chunk (`=`): the last
branch of the loop of `request_stack_trace`, where `src` is an in-memory buffer. -/
def is_anonymous (entry : lua_Debug) : Bool :=
  !(entry.source.data.head? = some '@') && !(entry.source.data.head? = some '=')

/-- One turn of the loop of `request_stack_trace`: the frame object written for the
frame at `depth`, and the entry pushed on `stack_` when there is one. -/
def stack_frame_of (h : host) (workingdir current : String) (depth : Int)
    (entry : lua_Debug) : stack_frame × Option stack_entry :=
  let frame (src : Option frame_source) : stack_frame :=
    { source := src, id := depth, column := 1, name := entry.name.getD "?",
      line := entry.currentline }
  if entry.source.data.head? = some '@' then
    let path := String.mk entry.source.data.tail
    let path := if h.is_complete path then h.path_uncomplete path current else path
    let path := h.complete path workingdir
    let name := h.filename path
    (frame (some { name := some name, path := some path, sourceReference := 0 }), none)
  else if entry.source.data.take 4 = ['=', '[', 'C', ']'] then
    (frame (some { name := some "<C function>", path := none, sourceReference := -1 }), none)
  else if entry.source.data.head? = some '=' then
    let r := h.get_or_eval entry.source
    if r.1 = custom_result.sucess ∨ r.1 = custom_result.sucess_once then
      let path := h.complete r.2 workingdir
      let name := h.filename path
      (frame (some { name := some name, path := some path, sourceReference := 0 }), none)
    else
      (frame none, none)
  else
    let reference := ensure_value_fits_in_mantissa entry.source_ptr
    (frame (some { name := none, path := none, sourceReference := reference }),
      some { depth := depth, reference := reference })

/-- The loop `while (lua_getstack(L, depth, &entry) && depth < levels)` of
`request_stack_trace`, run on the frames from level `depth` on: the frame objects
written, the entries pushed on `stack_`, and the final `depth`. -/
def stack_trace_loop (h : host) (workingdir current : String) (levels : Int) :
    List lua_Debug → Int → List stack_frame × List stack_entry × Int
  | [], depth => ([], [], depth)
  | entry :: rest, depth =>
    if depth < levels then
      let f := stack_frame_of h workingdir current depth entry
      let r := stack_trace_loop h workingdir current levels rest (depth + 1)
      (f.1 :: r.1, f.2.toList ++ r.2.1, r.2.2)
    else ([], [], depth)

/-- The method `debugger_impl::request_stack_trace`. -/
def request_stack_trace (h : host) (req : json) (L : lua_State) (s : debugger_impl) :
    Bool × debugger_impl :=
  let args := req.get "arguments"
  let levels := (args.get "levels").GetInt
  let r := stack_trace_loop h s.workingdir_ s.current_path levels L.frames 0
  let s := { s with stack_ := s.stack_ ++ r.2.1 }
  (false, emit (output.response_success req (body.stack_trace r.1 r.2.2)) s)

/-- The method `debugger_impl::request_source`. -/
def request_source (req : json) (L : lua_State) (s : debugger_impl) : Bool × debugger_impl :=
  let args := req.get "arguments"
  let sourceReference := (args.get "sourceReference").GetInt
  let depth : Int :=
    match s.stack_.find? (fun e => decide (e.reference = sourceReference)) with
    | some e => e.depth
    | none => -1
  match lua_getstack L depth with
  | some entry =>
    if is_anonymous entry then
      (false, emit (output.response_source req entry.source) s)
    else
      (false, emit (output.response_source req "Source not available") s)
  | none => (false, emit (output.response_source req "Source not available") s)

/-- The loop over `args["breakpoints"]` of `request_set_breakpoints`: the lines read and
the breakpoint table with each of them inserted. -/
def insert_breakpoints (uncomplete_path : String) :
    List json → List Nat → breakpoint → List Nat × breakpoint
  | [], lines, b => (lines, b)
  | m :: rest, lines, b =>
    let line := (m.get "line").GetInt.toNat
    let lines := lines ++ [line]
    let b :=
      if !m.HasMember "condition" then b.insert uncomplete_path line none
      else b.insert uncomplete_path line (some (m.get "condition").GetString)
    insert_breakpoints uncomplete_path rest lines b

/-- The method `debugger_impl::request_set_breakpoints`. -/
def request_set_breakpoints (h : host) (req : json) (s : debugger_impl) :
    Bool × debugger_impl :=
  let args := req.get "arguments"
  let source := args.get "source"
  let client_path := get_path (source.get "path")
  let uncomplete_path := h.path_uncomplete client_path s.workingdir_
  let b := s.breakpoints_.clear uncomplete_path
  let r := insert_breakpoints uncomplete_path (args.get "breakpoints").GetArray [] b
  let s := { s with breakpoints_ := r.2 }
  (false, emit (output.response_success req (body.breakpoints client_path r.1)) s)

/-- The reference `(int)type | (depth << 8)` that `request_scopes` writes for a scope. -/
def scope_reference (type : Int) (depth : Int) : Int :=
  bit_or type (wrap_int (shift_left depth 8))

/-- The method `debugger_impl::request_scopes`. -/
def request_scopes (req : json) (L : lua_State) (s : debugger_impl) : Bool × debugger_impl :=
  let args := req.get "arguments"
  let depth := (args.get "frameId").GetInt
  match lua_getstack L depth with
  | none => (false, emit (output.response_error req "Error retrieving stack frame") s)
  | some entry =>
    let scopes : List scope :=
      [{ name := "Locals", variablesReference := scope_reference var_type.local_ depth,
         expensive := false }]
      ++ (if entry.isvararg then
            [{ name := "Var Args", variablesReference := scope_reference var_type.vararg depth,
               expensive := false }]
          else [])
      ++ [{ name := "Upvalues", variablesReference := scope_reference var_type.upvalue depth,
            expensive := false },
          { name := "Globals", variablesReference := scope_reference var_type.global depth,
            expensive := false },
          { name := "Standard", variablesReference := scope_reference var_type.standard depth,
            expensive := false }]
    (false, emit (output.response_success req (body.scopes scopes)) s)

/-- The method `debugger_impl::request_variables`. -/
def request_variables (req : json) (L : lua_State) (s : debugger_impl) :
    Bool × debugger_impl :=
  let args := req.get "arguments"
  let var_ref := (args.get "variablesReference").GetInt
  let type := low_byte var_ref
  let depth := low_byte (shift_right var_ref 8)
  match lua_getstack L depth with
  | none => (false, emit (output.response_error req "Error retrieving variables") s)
  | some _ =>
    let s :=
      if type = var_type.watch then
        if !s.watch_.get (low_byte (shift_right var_ref 16)) then
          emit (output.response_error req "Error retrieving variables") s
        else s
      else s
    let n : Int := if type = var_type.watch then -1 else 0
    (false, emit (output.response_success req
      (body.variables n type depth (shift_right var_ref 16))) s)

/-- The method `debugger_impl::request_set_variable`. -/
def request_set_variable (h : host) (req : json) (L : lua_State) (s : debugger_impl) :
    Bool × debugger_impl :=
  let args := req.get "arguments"
  let var_ref := (args.get "variablesReference").GetInt
  let type := low_byte var_ref
  let depth := low_byte (shift_right var_ref 8)
  match lua_getstack L depth with
  | none => (false, emit (output.response_error req "Failed set variable") s)
  | some entry =>
    let name := (args.get "name").GetString
    let value := (args.get "value").GetString
    match h.set_value L entry type depth (shift_right var_ref 16) name value with
    | none => (false, emit (output.response_error req "Failed set variable") s)
    | some value => (false, emit (output.response_success req (body.value value)) s)

/-- The method `debugger_impl::request_configuration_done`. -/
def request_configuration_done (req : json) (s : debugger_impl) : Bool × debugger_impl :=
  (false, emit (output.response_success req body.empty) s)

/-- The method `debugger_impl::request_disconnect`. -/
def request_disconnect (req : json) (s : debugger_impl) : Bool × debugger_impl :=
  let s := emit (output.response_success req body.empty) s
  let s := set_state state.terminated s
  let s := emit output.close_session s
  (true, s)

/-- The method `debugger_impl::request_stepin`. -/
def request_stepin (req : json) (_L : lua_State) (s : debugger_impl) : Bool × debugger_impl :=
  let s := emit (output.response_success req body.empty) s
  (true, step_in s)

/-- The method `debugger_impl::request_stepout`. -/
def request_stepout (req : json) (L : lua_State) (s : debugger_impl) : Bool × debugger_impl :=
  let s := emit (output.response_success req body.empty) s
  (true, step_out L s)

/-- The method `debugger_impl::request_next`. -/
def request_next (req : json) (L : lua_State) (s : debugger_impl) : Bool × debugger_impl :=
  let s := emit (output.response_success req body.empty) s
  (true, step_over L s)

/-- The method `debugger_impl::request_continue`. -/
def request_continue (req : json) (_L : lua_State) (s : debugger_impl) :
    Bool × debugger_impl :=
  let s := emit (output.response_success req body.empty) s
  (true, set_state state.running s)

/-- The method `debugger_impl::request_pause`. -/
def request_pause (req : json) (s : debugger_impl) : Bool × debugger_impl :=
  let s := emit (output.response_success req body.empty) s
  (true, step_in s)

/-- The text `request_evaluate` answers with for the values in `rets`. -/
def evaluate_result (rets : List eval_value) : String :=
  match rets with
  | [] => "nil"
  | r :: rest => rest.foldl (fun result x => result ++ ", " ++ x.value) r.value

/-- The method `debugger_impl::request_evaluate`. -/
def request_evaluate (h : host) (req : json) (L : lua_State) (s : debugger_impl) :
    Bool × debugger_impl :=
  let args := req.get "arguments"
  let context := args.get "context"
  let depth := (args.get "frameId").GetInt
  let expression := (args.get "expression").GetString
  match lua_getstack L depth with
  | none => (false, emit (output.response_error req "error stack frame") s)
  | some current =>
    match h.evaluate L current ("return " ++ expression) (context.is_str "repl") with
    | Except.error err =>
      if !context.is_str "repl" then
        (false, emit (output.response_error req err) s)
      else
        match h.evaluate L current expression true with
        | Except.error err => (false, emit (output.response_error req err) s)
        | Except.ok _ => (false, emit (output.response_success req (body.evaluate "ok" 0)) s)
    | Except.ok results =>
      let rets := results.reverse
      let pinned : debugger_impl × Int :=
        match rets with
        | [r] =>
          if r.is_table && context.is_str "watch" then
            let a := s.watch_.add
            if a.2 > 0 then
              ({ s with watch_ := a.1 }, bit_or var_type.watch (shift_left a.2 16))
            else ({ s with watch_ := a.1 }, 0)
          else (s, 0)
        | _ => (s, 0)
      (false, emit (output.response_success req
        (body.evaluate (evaluate_result rets) pinned.2)) pinned.1)

/-! ## The content of `stack_` in terms of the frames -/

/-- The entries for the anonymous chunks among `frames`, the first of which is at level
`n`: one `(level, address)` for each, in frame order. -/
def anonymous_entries (n : Nat) (frames : List lua_Debug) : List stack_entry :=
  ((frames.enumFrom n).filter (fun p => is_anonymous p.2)).map
    (fun p => { depth := (p.1 : Int), reference := p.2.source_ptr })

/-! ## Sample data -/

/-- A VM with the given address and call stack. -/
def sample_vm (ptr : Nat) (frames : List lua_Debug) : lua_State :=
  { ptr := ptr, frames := frames, package_path := "", package_cpath := "" }

/-- A debugger in the given state with the stack depth counter at `stacklevel`, nothing
sent, no breakpoints, no watch and an empty `stack_`. -/
def sample_debugger (st : state) (stacklevel : Int) : debugger_impl :=
  { state_ := st, step_ := step.in_, stepping_stacklevel_ := 0, stepping_lua_state_ := 0,
    stacklevel_ := stacklevel, workingdir_ := "", current_path := "", stack_ := [],
    watch_ := { size := 0 }, breakpoints_ := { breaks := [] }, GL_ := sample_vm 1 [],
    sent := [] }

/-- A Lua function frame of an anonymous in-memory chunk whose buffer is at `ptr`. -/
def sample_frame (ptr : Int) : lua_Debug :=
  { source := "print(1)", source_ptr := ptr, name := none, currentline := 1, isvararg := false }

/-- A request with the given `arguments` members. -/
def sample_request (command : String) (arguments : List (String × json)) : json :=
  json.obj [("command", json.str command), ("arguments", json.obj arguments)]

/-- A host in which no file loads, nothing evaluates, no value can be set, no chunk name
resolves, and paths are left as they are. -/
def sample_host : host :=
  { luaL_loadfile := fun _ file => some ("cannot open " ++ file),
    lua_pcall := fun s => { hooked := { s with sent := [] }, error := none },
    is_complete := fun _ => false,
    path_uncomplete := fun path _ => path,
    complete := fun path _ => path,
    filename := fun path => path,
    get_or_eval := fun _ => (custom_result.failed, ""),
    evaluate := fun _ _ _ _ => Except.error "syntax error",
    set_value := fun _ _ _ _ _ _ _ => none }

/-- The host `sample_host`, except that every file loads and the launched script runs
to its end without a hook firing. -/
def sample_host_loading : host :=
  { sample_host with luaL_loadfile := fun _ _ => none }

/-- An initialize request. -/
def sample_initialize : json :=
  sample_request "initialize" []

/-- A launch request for `a.lua` in the directory `/Tmp`, stopping on entry. -/
def sample_launch : json :=
  sample_request "launch"
    [("program", json.str "a.lua"), ("stopOnEntry", json.bool true), ("cwd", json.str "/Tmp")]

/-- The messages sent, without the state they were sent in. -/
def sent_msgs (s : debugger_impl) : List output :=
  s.sent.map emitted.msg

/-! ## Lemmas on the state machine -/

@[simp]
theorem emit_state_ (o : output) (s : debugger_impl) : (emit o s).state_ = s.state_ := rfl

@[simp]
theorem emit_sent (o : output) (s : debugger_impl) :
    (emit o s).sent = s.sent ++ [⟨o, s.state_⟩] := rfl

theorem set_state_state_ (st : state) (s : debugger_impl) : (set_state st s).state_ = st := by
  unfold set_state
  by_cases h : s.state_ = st
  · simp [h]
  · cases st <;> simp [h]

theorem set_state_stacklevel_ (st : state) (s : debugger_impl) :
    (set_state st s).stacklevel_ = s.stacklevel_ := by
  unfold set_state
  by_cases h : s.state_ = st
  · simp [h]
  · cases st <;> simp [h, emit]

theorem set_state_sent (st : state) (s : debugger_impl) :
    ∃ more : List emitted, (set_state st s).sent = s.sent ++ more := by
  unfold set_state
  by_cases h : s.state_ = st
  · refine ⟨[], ?_⟩
    simp [h]
  · rcases st with _ | _ | _ | _ | _
    · refine ⟨[], ?_⟩
      simp [h]
    · refine ⟨[⟨output.event_initialized, state.initialized⟩,
        ⟨output.open_, state.initialized⟩,
        ⟨output.event_output "console" "Debugger initialized\n", state.initialized⟩], ?_⟩
      simp [h, emit]
    · refine ⟨[], ?_⟩
      simp [h]
    · refine ⟨[], ?_⟩
      simp [h]
    · refine ⟨[⟨output.event_terminated, state.terminated⟩,
        ⟨output.close_, state.terminated⟩], ?_⟩
      simp [h, emit]

theorem wrap_int_of_range (x : Int) (h₁ : INT_MIN ≤ x) (h₂ : x ≤ INT_MAX) : wrap_int x = x := by
  unfold INT_MIN at h₁
  unfold INT_MAX at h₂
  unfold wrap_int
  omega

/-! ## Step control -/

/-- C1: after `step_over(vm0)` called with the stack depth counter at `d0`, `check_step(vm)`
evaluated with the counter at `d` is true exactly when `vm` is the instance `vm0` and
`d ≤ d0`. -/
theorem check_step_after_step_over (vm0 vm : lua_State) (s : debugger_impl) (d : Int) :
    check_step vm { step_over vm0 s with stacklevel_ := d } = true ↔
      vm.ptr = vm0.ptr ∧ d ≤ s.stacklevel_ := by
  simp only [check_step, step_over, set_step, set_state_stacklevel_, Bool.and_eq_true,
    decide_eq_true_eq, ge_iff_le]
  constructor
  · rintro ⟨h₁, h₂⟩
    exact ⟨h₁.symm, h₂⟩
  · rintro ⟨h₁, h₂⟩
    exact ⟨h₁.symm, h₂⟩

/-- C2 as stated fails: after `step_in`, `check_step` on a VM at the non-null address 1
with the stack depth counter at 0 is false. -/
theorem check_step_after_step_in_nonnull_false :
    check_step (sample_vm 1 [])
      { step_in (sample_debugger state.stepping 0) with stacklevel_ := 0 } = false := by
  decide

/-- C2, amended: after `step_in` has set the anchor to level -1000 and the null VM,
`check_step(vm)` with the stack depth counter at `d` is true exactly when `vm` is the
null instance and `d ≤ -1000`; so it is false for every non-null VM at every depth. -/
theorem check_step_after_step_in (vm : lua_State) (s : debugger_impl) (d : Int) :
    (check_step vm { step_in s with stacklevel_ := d } = true ↔ vm.ptr = 0 ∧ d ≤ -1000) ∧
    (vm.ptr ≠ 0 → check_step vm { step_in s with stacklevel_ := d } = false) := by
  have key : check_step vm { step_in s with stacklevel_ := d } = true ↔
      vm.ptr = 0 ∧ d ≤ -1000 := by
    simp only [check_step, step_in, set_step, Bool.and_eq_true, decide_eq_true_eq, ge_iff_le]
    constructor
    · rintro ⟨h₁, h₂⟩
      exact ⟨h₁.symm, h₂⟩
    · rintro ⟨h₁, h₂⟩
      exact ⟨h₁.symm, h₂⟩
  refine ⟨key, fun h => ?_⟩
  cases hc : check_step vm { step_in s with stacklevel_ := d }
  · rfl
  · exact absurd (key.mp hc).1 h

/-- Witness for C2, amended: `check_step` on the VM at address 1 after `step_in`, with the
stack depth counter at -2000. -/
theorem check_step_after_step_in_witness :
    (sample_vm 1 []).ptr ≠ 0 ∧
    check_step (sample_vm 1 [])
      { step_in (sample_debugger state.stepping 0) with stacklevel_ := -2000 } = false :=
  ⟨by decide,
    (check_step_after_step_in (sample_vm 1 []) (sample_debugger state.stepping 0) (-2000)).2
      (by decide)⟩

/-- C9: after `step_out(vm0)` called with the stack depth counter at `D` (an `int` other
than the least one, so that `D - 1` is an `int`), the anchor is `(D - 1, vm0)`, the step
mode is `out`, the state is `stepping`, and `check_step(vm)` with the counter at `d` is
true exactly when `vm` is the instance `vm0` and `d ≤ D - 1`. -/
theorem check_step_after_step_out (vm0 vm : lua_State) (s : debugger_impl) (d : Int)
    (h₁ : INT_MIN < s.stacklevel_) (h₂ : s.stacklevel_ ≤ INT_MAX) :
    (step_out vm0 s).stepping_stacklevel_ = s.stacklevel_ - 1 ∧
    (step_out vm0 s).stepping_lua_state_ = vm0.ptr ∧
    (step_out vm0 s).step_ = step.out ∧
    (step_out vm0 s).state_ = state.stepping ∧
    (check_step vm { step_out vm0 s with stacklevel_ := d } = true ↔
      vm.ptr = vm0.ptr ∧ d ≤ s.stacklevel_ - 1) := by
  have hw : wrap_int (s.stacklevel_ - 1) = s.stacklevel_ - 1 :=
    wrap_int_of_range _ (by unfold INT_MIN at *; omega) (by unfold INT_MAX at *; omega)
  refine ⟨?_, ?_, ?_, ?_, ?_⟩
  · simp [step_out, set_step, set_state_stacklevel_, hw]
  · simp [step_out]
  · simp [step_out, set_step]
  · simp [step_out, set_step, set_state_state_]
  · simp only [check_step, step_out, set_step, set_state_stacklevel_, hw, Bool.and_eq_true,
      decide_eq_true_eq, ge_iff_le]
    constructor
    · rintro ⟨h₁, h₂⟩
      exact ⟨h₁.symm, h₂⟩
    · rintro ⟨h₁, h₂⟩
      exact ⟨h₁.symm, h₂⟩

/-- Witness for C9: `step_out` on VM 7 at depth 3, then `check_step` on the same VM at
depth 2. -/
theorem check_step_after_step_out_witness :
    (step_out (sample_vm 7 []) (sample_debugger state.stepping 3)).stepping_stacklevel_ = 3 - 1 ∧
    (step_out (sample_vm 7 []) (sample_debugger state.stepping 3)).stepping_lua_state_ = 7 ∧
    (step_out (sample_vm 7 []) (sample_debugger state.stepping 3)).step_ = step.out ∧
    (step_out (sample_vm 7 []) (sample_debugger state.stepping 3)).state_ = state.stepping ∧
    (check_step (sample_vm 7 [])
        { step_out (sample_vm 7 []) (sample_debugger state.stepping 3) with stacklevel_ := 2 }
          = true ↔
      (sample_vm 7 []).ptr = (sample_vm 7 []).ptr ∧ (2 : Int) ≤ 3 - 1) :=
  check_step_after_step_out (sample_vm 7 []) (sample_vm 7 []) (sample_debugger state.stepping 3)
    2 (by decide) (by decide)

/-! ## Variable references -/

/-- Supporting fact for C3: for the five scope categories and a frame depth below 256,
the reference `request_scopes` writes decodes, the way `request_variables` decodes it,
to the category, the same depth and payload 0. -/
theorem scope_reference_decode (type depth : Int) (ht : 1 ≤ type ∧ type ≤ 5)
    (hd : 0 ≤ depth ∧ depth < 256) :
    low_byte (scope_reference type depth) = type ∧
    low_byte (shift_right (scope_reference type depth) 8) = depth ∧
    shift_right (scope_reference type depth) 16 = 0 := by
  obtain ⟨ht₁, ht₂⟩ := ht
  obtain ⟨hd₁, hd₂⟩ := hd
  interval_cases type <;> interval_cases depth <;> decide

/-- C3 fails on the code at frame depth 256: on a VM with 257 frames `request_scopes` for
`frameId` 256 succeeds and writes 65537 as the reference of Locals, 65539 for Upvalues,
65540 for Globals and 65541 for Standard; `request_variables` on 65537 then
materialises category 1 at frame depth 0 with payload 1, not depth 256 with payload 0. -/
theorem request_scopes_depth_256_not_round_trip :
    sent_msgs (request_scopes (sample_request "scopes" [("frameId", json.int 256)])
        (sample_vm 1 (List.replicate 257 (sample_frame 4096)))
        (sample_debugger state.stepping 257)).2 =
      [output.response_success (sample_request "scopes" [("frameId", json.int 256)])
        (body.scopes [⟨"Locals", 65537, false⟩, ⟨"Upvalues", 65539, false⟩,
          ⟨"Globals", 65540, false⟩, ⟨"Standard", 65541, false⟩])] ∧
    sent_msgs (request_variables
        (sample_request "variables" [("variablesReference", json.int 65537)])
        (sample_vm 1 (List.replicate 257 (sample_frame 4096)))
        (sample_debugger state.stepping 257)).2 =
      [output.response_success
        (sample_request "variables" [("variablesReference", json.int 65537)])
        (body.variables 0 1 0 1)] := by
  constructor <;> rfl

/-- Supporting fact for C5: whenever the reference has category watch, its frame exists
and its slot is not in the watch table, `request_variables` sends the error and then a
success response with the materialised variables. -/
theorem request_variables_stale_watch (req : json) (L : lua_State) (s : debugger_impl)
    (entry : lua_Debug)
    (htype : low_byte ((req.get "arguments").get "variablesReference").GetInt = var_type.watch)
    (hframe : lua_getstack L
      (low_byte (shift_right ((req.get "arguments").get "variablesReference").GetInt 8)) =
        some entry)
    (hslot : s.watch_.get
      (low_byte (shift_right ((req.get "arguments").get "variablesReference").GetInt 16)) =
        false) :
    (request_variables req L s).2.sent =
      s.sent ++
        [⟨output.response_error req "Error retrieving variables", s.state_⟩,
         ⟨output.response_success req
            (body.variables (-1) var_type.watch
              (low_byte (shift_right ((req.get "arguments").get "variablesReference").GetInt 8))
              (shift_right ((req.get "arguments").get "variablesReference").GetInt 16)),
          s.state_⟩] := by
  simp [request_variables, hframe, htype, hslot, emit]

/-- C5 fails on the code: a variables request for the watch reference 65542 (category 6,
frame 0, slot 1) while the watch table is empty is answered twice, first by the error
"Error retrieving variables" and then by a success response that materialises the
variables of slot 1. -/
theorem request_variables_stale_watch_two_responses :
    sent_msgs (request_variables
        (sample_request "variables" [("variablesReference", json.int 65542)])
        (sample_vm 1 [sample_frame 4096])
        (sample_debugger state.stepping 1)).2 =
      [output.response_error
          (sample_request "variables" [("variablesReference", json.int 65542)])
          "Error retrieving variables",
        output.response_success
          (sample_request "variables" [("variablesReference", json.int 65542)])
          (body.variables (-1) 6 0 1)] := by
  rfl

/-! ## Leaving the state `birth` -/

/-- C4 as stated fails: `request_disconnect` run in state `birth` leaves the debugger in
state `terminated`. -/
theorem request_disconnect_leaves_birth :
    (sample_debugger state.birth 0).state_ = state.birth ∧
    (request_disconnect (sample_request "disconnect" []) (sample_debugger state.birth 0)).2.state_
      = state.terminated := by
  decide

/-- C4, amended: run in state `birth`, the handlers of launch, attach, configurationDone,
setBreakpoints, threads, stackTrace, source, scopes, variables, setVariable and evaluate
leave the state `birth`; `request_disconnect` leaves `terminated`, `request_continue`
leaves `running`, and `request_next`, `request_stepin`, `request_stepout` and
`request_pause` leave `stepping`. Launch and attach do nothing in state `birth` but
answer with the error "not initialized or unexpected state" and return false. -/
theorem handlers_run_in_birth (h : host) (req : json) (L : lua_State) (s : debugger_impl)
    (hs : s.state_ = state.birth) :
    (request_launch h req s).2.state_ = state.birth ∧
    (request_attach req s).2.state_ = state.birth ∧
    (request_configuration_done req s).2.state_ = state.birth ∧
    (request_set_breakpoints h req s).2.state_ = state.birth ∧
    (request_thread req s).2.state_ = state.birth ∧
    (request_stack_trace h req L s).2.state_ = state.birth ∧
    (request_source req L s).2.state_ = state.birth ∧
    (request_scopes req L s).2.state_ = state.birth ∧
    (request_variables req L s).2.state_ = state.birth ∧
    (request_set_variable h req L s).2.state_ = state.birth ∧
    (request_evaluate h req L s).2.state_ = state.birth ∧
    (request_disconnect req s).2.state_ = state.terminated ∧
    (request_continue req L s).2.state_ = state.running ∧
    (request_next req L s).2.state_ = state.stepping ∧
    (request_stepin req L s).2.state_ = state.stepping ∧
    (request_stepout req L s).2.state_ = state.stepping ∧
    (request_pause req s).2.state_ = state.stepping ∧
    request_launch h req s =
      (false, emit (output.response_error req "not initialized or unexpected state") s) ∧
    request_attach req s =
      (false, emit (output.response_error req "not initialized or unexpected state") s) := by
  refine ⟨?_, ?_, ?_, ?_, ?_, ?_, ?_, ?_, ?_, ?_, ?_, ?_, ?_, ?_, ?_, ?_, ?_, ?_, ?_⟩
  · simp [request_launch, is_state, hs]
  · simp [request_attach, is_state, hs]
  · simp [request_configuration_done, hs]
  · simp [request_set_breakpoints, hs]
  · simp [request_thread, hs]
  · simp [request_stack_trace, hs]
  · simp only [request_source]
    split <;> [split; skip] <;> simp [hs]
  · simp only [request_scopes]
    split <;> simp [hs]
  · simp only [request_variables]
    split
    · simp [hs]
    · simp only [emit_state_]
      split <;> [split; skip] <;> simp [hs]
  · simp only [request_set_variable]
    split <;> [skip; split] <;> simp [hs]
  · simp only [request_evaluate]
    repeat' split
    all_goals simp [hs]
  · simp [request_disconnect, set_state_state_]
  · simp [request_continue, set_state_state_]
  · simp [request_next, step_over, set_step, set_state_state_]
  · simp [request_stepin, step_in, set_step, set_state_state_]
  · simp [request_stepout, step_out, set_step, set_state_state_]
  · simp [request_pause, step_in, set_step, set_state_state_]
  · simp [request_launch, is_state, hs]
  · simp [request_attach, is_state, hs]

/-- Witness for C4: the handlers of launch and disconnect run on a debugger in state
`birth`, and the answer of launch there. -/
theorem handlers_run_in_birth_witness :
    (sample_debugger state.birth 0).state_ = state.birth ∧
    (request_launch sample_host (sample_request "launch" [("program", json.str "a.lua")])
      (sample_debugger state.birth 0)).2.state_ = state.birth ∧
    (request_disconnect (sample_request "launch" [("program", json.str "a.lua")])
      (sample_debugger state.birth 0)).2.state_ = state.terminated ∧
    request_launch sample_host (sample_request "launch" [("program", json.str "a.lua")])
        (sample_debugger state.birth 0) =
      (false, emit (output.response_error
        (sample_request "launch" [("program", json.str "a.lua")])
        "not initialized or unexpected state") (sample_debugger state.birth 0)) :=
  ⟨rfl,
    (handlers_run_in_birth sample_host (sample_request "launch" [("program", json.str "a.lua")])
      (sample_vm 1 []) (sample_debugger state.birth 0) rfl).1,
    (handlers_run_in_birth sample_host (sample_request "launch" [("program", json.str "a.lua")])
      (sample_vm 1 []) (sample_debugger state.birth 0) rfl).2.2.2.2.2.2.2.2.2.2.2.1,
    (handlers_run_in_birth sample_host (sample_request "launch" [("program", json.str "a.lua")])
      (sample_vm 1 []) (sample_debugger state.birth 0) rfl).2.2.2.2.2.2.2.2.2.2.2.2.2.2.2.2.2.1⟩

/-! ## Launch -/

/-- C6: from state `birth`, initialize and then launch of a program that loads, with
`stopOnEntry` true or not given, send in this order the initialize response, the
`initialized` event, the console output "Debugger initialized", the launch response, the
`thread` started event and the `stopped` event with reason "entry"; between them only
`open()` is called, which sends nothing to the client; and `state_` is `stepping` when
the `stopped` event is sent. -/
theorem cold_start_stop_on_entry (h : host) (reqI reqL : json) (s : debugger_impl)
    (hs : s.state_ = state.birth)
    (hprogram : ((reqL.get "arguments").HasMember "program" &&
      ((reqL.get "arguments").get "program").IsString) = true)
    (hstop : (if (reqL.get "arguments").HasMember "stopOnEntry" &&
        ((reqL.get "arguments").get "stopOnEntry").IsBool
      then ((reqL.get "arguments").get "stopOnEntry").GetBool else true) = true)
    (hload : h.luaL_loadfile
      (if (reqL.get "arguments").HasMember "cwd" && ((reqL.get "arguments").get "cwd").IsString
        then get_path ((reqL.get "arguments").get "cwd") else s.current_path)
      (get_path ((reqL.get "arguments").get "program")) = none) :
    (∃ rest : List emitted,
      (request_launch h reqL ( request_initialize reqI s).2).2.sent =
        s.sent ++
          [⟨output.response_initialized reqI, state.birth⟩,
           ⟨output.event_initialized, state.initialized⟩,
           ⟨output.open_, state.initialized⟩,
           ⟨output.event_output "console" "Debugger initialized\n", state.initialized⟩,
           ⟨output.response_success reqL body.empty, state.initialized⟩,
           ⟨output.event_thread true, state.initialized⟩,
           ⟨output.event_stopped "entry", state.stepping⟩] ++ rest) ∧
      (([⟨output.response_initialized reqI, state.birth⟩,
           ⟨output.event_initialized, state.initialized⟩,
           ⟨output.open_, state.initialized⟩,
           ⟨output.event_output "console" "Debugger initialized\n", state.initialized⟩,
           ⟨output.response_success reqL body.empty, state.initialized⟩,
           ⟨output.event_thread true, state.initialized⟩,
           ⟨output.event_stopped "entry", state.stepping⟩] : List emitted).map
          emitted.msg).filter client_visible =
        [output.response_initialized reqI, output.event_initialized,
         output.event_output "console" "Debugger initialized\n",
         output.response_success reqL body.empty, output.event_thread true,
         output.event_stopped "entry"] := by
  have hp : (reqL.get "arguments").HasMember "program" = true ∧
      ((reqL.get "arguments").get "program").IsString = true := by
    simpa using hprogram
  have hinit : ( request_initialize reqI s).2 =
      { s with state_ := state.initialized,
               sent := s.sent ++
                 [⟨output.response_initialized reqI, state.birth⟩,
                  ⟨output.event_initialized, state.initialized⟩,
                  ⟨output.open_, state.initialized⟩,
                  ⟨output.event_output "console" "Debugger initialized\n",
                    state.initialized⟩] } := by
    simp [is_state, hs, set_state, emit, request_initialize]
  rw [hinit]
  refine ⟨?_, rfl⟩
  by_cases hcwd : ((reqL.get "arguments").HasMember "cwd" &&
      ((reqL.get "arguments").get "cwd").IsString) = true <;>
  by_cases hpath : ((reqL.get "arguments").HasMember "path" &&
      ((reqL.get "arguments").get "cpath").IsString) = true <;>
  by_cases hcpath : ((reqL.get "arguments").HasMember "cpath" &&
      ((reqL.get "arguments").get "cpath").IsString) = true <;>
  simp only [hcwd, if_true, if_false] at hload <;>
  simp only [request_launch, is_state, hprogram, hcwd, hpath, hcpath, hload, hstop, hp.1, hp.2,
    decide_True, Bool.not_true, Bool.or_self, if_true, if_false, Bool.false_eq_true]
  all_goals
    simp only [set_state, emit, reduceCtorEq, if_false]
    repeat' split
    all_goals first
      | (simp only [List.append_assoc, List.cons_append, List.nil_append,
          List.singleton_append]
         exact ⟨_, rfl⟩)
      | simp_all

/-- Witness for C6: initialize and launch of `a.lua` on a fresh debugger, with a host in
which the file loads. -/
theorem cold_start_stop_on_entry_witness :
    (sample_debugger state.birth 0).state_ = state.birth ∧
    ∃ rest : List emitted,
      (request_launch sample_host_loading sample_launch
          ( request_initialize sample_initialize (sample_debugger state.birth 0)).2).2.sent =
        (sample_debugger state.birth 0).sent ++
          [⟨output.response_initialized sample_initialize, state.birth⟩,
           ⟨output.event_initialized, state.initialized⟩,
           ⟨output.open_, state.initialized⟩,
           ⟨output.event_output "console" "Debugger initialized\n", state.initialized⟩,
           ⟨output.response_success sample_launch body.empty, state.initialized⟩,
           ⟨output.event_thread true, state.initialized⟩,
           ⟨output.event_stopped "entry", state.stepping⟩] ++ rest :=
  ⟨rfl, (cold_start_stop_on_entry sample_host_loading sample_initialize sample_launch
    (sample_debugger state.birth 0) rfl (by decide) (by decide) rfl).1⟩

/-- C7 as stated fails: a launch of `a.lua` with `cwd` given, run in state `initialized`
with a host in which the file does not load, is answered with "Launch failed" and leaves
`workingdir_` at the lower-cased `cwd` instead of its former value. -/
theorem failed_launch_changes_workingdir :
    (sample_debugger state.initialized 0).workingdir_ = "" ∧
    (request_launch sample_host sample_launch (sample_debugger state.initialized 0)).2.workingdir_
      = "/tmp" ∧
    sent_msgs (request_launch sample_host sample_launch (sample_debugger state.initialized 0)).2 =
      [output.event_output "console"
          "Failed to launch a.lua due to error: cannot open a.lua\n",
        output.response_error sample_launch "Launch failed"] := by
  refine ⟨rfl, ?_, ?_⟩
  · decide
  · rfl

/-- C7, amended: a launch run in state `initialized` that fails, because `program` is
missing or no string or because the script does not load, ends with the response
"Launch failed" and leaves `state_`, `step_` and the step anchor as they were;
`workingdir_` is as it was when `program` is missing or no string or when `cwd` is missing
or no string, and is the lower-cased `cwd` when the script does not load and `cwd` is a
string. -/
theorem failed_launch_keeps_state (h : host) (req : json) (s : debugger_impl)
    (hs : s.state_ = state.initialized)
    (hfail : (!(req.get "arguments").HasMember "program" ||
        !((req.get "arguments").get "program").IsString) = true ∨
      ∃ err, h.luaL_loadfile
        (if (req.get "arguments").HasMember "cwd" && ((req.get "arguments").get "cwd").IsString
          then get_path ((req.get "arguments").get "cwd") else s.current_path)
        (get_path ((req.get "arguments").get "program")) = some err) :
    (request_launch h req s).2.state_ = s.state_ ∧
    (request_launch h req s).2.step_ = s.step_ ∧
    (request_launch h req s).2.stepping_stacklevel_ = s.stepping_stacklevel_ ∧
    (request_launch h req s).2.stepping_lua_state_ = s.stepping_lua_state_ ∧
    (request_launch h req s).2.workingdir_ =
      (if (!(req.get "arguments").HasMember "program" ||
          !((req.get "arguments").get "program").IsString) = true then s.workingdir_
        else if (req.get "arguments").HasMember "cwd" &&
          ((req.get "arguments").get "cwd").IsString
        then get_path ((req.get "arguments").get "cwd")
        else s.workingdir_) ∧
    (request_launch h req s).2.sent.getLast?.map emitted.msg =
      some (output.response_error req "Launch failed") := by
  by_cases hprogram : (!(req.get "arguments").HasMember "program" ||
      !((req.get "arguments").get "program").IsString) = true
  · simp [request_launch, is_state, hs, hprogram, emit]
  · have hload : ∃ err, h.luaL_loadfile
        (if (req.get "arguments").HasMember "cwd" && ((req.get "arguments").get "cwd").IsString
          then get_path ((req.get "arguments").get "cwd") else s.current_path)
        (get_path ((req.get "arguments").get "program")) = some err :=
      hfail.resolve_left hprogram
    obtain ⟨err, herr⟩ := hload
    by_cases hcwd : ((req.get "arguments").HasMember "cwd" &&
        ((req.get "arguments").get "cwd").IsString) = true <;>
    by_cases hpath : ((req.get "arguments").HasMember "path" &&
        ((req.get "arguments").get "cpath").IsString) = true <;>
    by_cases hcpath : ((req.get "arguments").HasMember "cpath" &&
        ((req.get "arguments").get "cpath").IsString) = true <;>
    simp only [hcwd, if_true, if_false, Bool.false_eq_true] at herr <;>
    simp [request_launch, is_state, hs, hprogram, hcwd, hpath, hcpath, herr, emit]

/-- Witness for C7: the launch of `a.lua` with a host in which no file loads. -/
theorem failed_launch_keeps_state_witness :
    (sample_debugger state.initialized 0).state_ = state.initialized ∧
    (request_launch sample_host sample_launch (sample_debugger state.initialized 0)).2.state_ =
      (sample_debugger state.initialized 0).state_ ∧
    (request_launch sample_host sample_launch (sample_debugger state.initialized 0)).2.step_ =
      (sample_debugger state.initialized 0).step_ :=
  ⟨rfl,
    (failed_launch_keeps_state sample_host sample_launch (sample_debugger state.initialized 0)
      rfl (Or.inr ⟨"cannot open a.lua", rfl⟩)).1,
    (failed_launch_keeps_state sample_host sample_launch (sample_debugger state.initialized 0)
      rfl (Or.inr ⟨"cannot open a.lua", rfl⟩)).2.1⟩

/-! ## Stack trace and synthetic source references -/

/-- The frame `lua_getstack` finds at level `n` is the first of the frames that
`stack_trace_loop` walks from level `n` on. -/
theorem lua_getstack_drop (L : lua_State) (n : Nat) :
    lua_getstack L (n : Int) = (L.frames.drop n).head? := by
  simp [lua_getstack, List.head?_drop]

theorem head_of_take_four (l : List Char) (h : l.take 4 = ['=', '[', 'C', ']']) :
    l.head? = some '=' := by
  cases l with
  | nil => simp at h
  | cons a t =>
    simp only [List.take_succ_cons, List.cons.injEq] at h
    simp [h.1]

/-- The entry one turn of the loop pushes on `stack_`: `(depth, (intptr_t)src)` for an
anonymous chunk, nothing otherwise. -/
theorem stack_frame_of_entry (h : host) (workingdir current : String) (depth : Int)
    (entry : lua_Debug) :
    (stack_frame_of h workingdir current depth entry).2 =
      if is_anonymous entry then some { depth := depth, reference := entry.source_ptr }
      else none := by
  unfold stack_frame_of is_anonymous ensure_value_fits_in_mantissa
  by_cases h1 : entry.source.data.head? = some '@'
  · simp [h1]
  · by_cases h2 : entry.source.data.take 4 = ['=', '[', 'C', ']']
    · have h3 := head_of_take_four _ h2
      simp [h1, h2, h3]
    · by_cases h3 : entry.source.data.head? = some '='
      · simp only [h1, h2, h3, if_true, if_false]
        by_cases h4 : (h.get_or_eval entry.source).1 = custom_result.sucess ∨
            (h.get_or_eval entry.source).1 = custom_result.sucess_once
        · simp [h4]
        · simp [h4]
      · simp [h1, h2, h3]

/-- The frame object one turn of the loop writes for an anonymous chunk: its `source` has
only `sourceReference`, the address of the buffer. -/
theorem stack_frame_of_anonymous (h : host) (workingdir current : String) (depth : Int)
    (entry : lua_Debug) (ha : is_anonymous entry = true) :
    (stack_frame_of h workingdir current depth entry).1.source =
      some { name := none, path := none, sourceReference := entry.source_ptr } ∧
    (stack_frame_of h workingdir current depth entry).1.id = depth := by
  unfold is_anonymous at ha
  simp only [Bool.and_eq_true, Bool.not_eq_true', decide_eq_false_iff_not] at ha
  have h2 : ¬ entry.source.data.take 4 = ['=', '[', 'C', ']'] :=
    fun h2 => ha.2 (head_of_take_four _ h2)
  unfold stack_frame_of ensure_value_fits_in_mantissa
  simp [ha.1, ha.2, h2]

theorem stack_trace_loop_entries (h : host) (workingdir current : String) (levels : Int) :
    ∀ (frames : List lua_Debug) (n : Nat),
      (stack_trace_loop h workingdir current levels frames n).2.1 =
        anonymous_entries n (frames.take (levels - n).toNat) := by
  intro frames
  induction frames with
  | nil => intro n; simp [stack_trace_loop, anonymous_entries]
  | cons e rest ih =>
    intro n
    unfold stack_trace_loop
    by_cases hlt : (n : Int) < levels
    · have hk : (levels - n).toNat = (levels - ((n + 1 : Nat) : Int)).toNat + 1 := by
        push_cast
        omega
      have ih' := ih (n + 1)
      push_cast at ih'
      simp only [hlt, if_true, hk, List.take_succ_cons, ih', stack_frame_of_entry]
      unfold anonymous_entries
      by_cases ha : is_anonymous e = true
      · simp [ha, List.enumFrom_cons, List.filter_cons]
      · simp [ha, List.enumFrom_cons, List.filter_cons]
    · have hk : (levels - n).toNat = 0 := by omega
      simp [hlt, hk, anonymous_entries]

theorem stack_trace_loop_frames (h : host) (workingdir current : String) (levels : Int) :
    ∀ (frames : List lua_Debug) (n : Nat),
      (stack_trace_loop h workingdir current levels frames n).1 =
          ((frames.take (levels - n).toNat).enumFrom n).map
            (fun p => (stack_frame_of h workingdir current (p.1 : Int) p.2).1) ∧
      (stack_trace_loop h workingdir current levels frames n).2.2 =
          (n : Int) + ((frames.take (levels - n).toNat).length : Int) := by
  intro frames
  induction frames with
  | nil => intro n; simp [stack_trace_loop]
  | cons e rest ih =>
    intro n
    unfold stack_trace_loop
    by_cases hlt : (n : Int) < levels
    · have hk : (levels - n).toNat = (levels - ((n + 1 : Nat) : Int)).toNat + 1 := by
        push_cast
        omega
      have ih' := ih (n + 1)
      push_cast at ih'
      simp only [hlt, if_true, hk, List.take_succ_cons, ih', List.enumFrom_cons, List.map_cons,
        List.length_cons]
      refine ⟨rfl, ?_⟩
      push_cast
      omega
    · have hk : (levels - n).toNat = 0 := by omega
      simp [hlt, hk]

/-- C8 as stated fails: for a buffer at the negative address -1342177280 (a 32-bit
`intptr_t` of a buffer in the upper half of the address space), which passes the
assertion of `ensure_value_fits_in_mantissa`, `request_stack_trace` records and sends
-1342177280 itself, which is not above 0. Nor is anything clamped above: the address
9007199254740992 fails the assertion, and where the assertion is compiled out
`ensure_value_fits_in_mantissa` gives it back unchanged. -/
theorem request_stack_trace_negative_reference :
    fits_in_mantissa (-1342177280) = true ∧
    (request_stack_trace sample_host (sample_request "stackTrace" [("levels", json.int 20)])
        (sample_vm 1 [sample_frame (-1342177280)]) (sample_debugger state.stepping 1)).2.stack_ =
      [{ depth := 0, reference := -1342177280 }] ∧
    sent_msgs (request_stack_trace sample_host
        (sample_request "stackTrace" [("levels", json.int 20)])
        (sample_vm 1 [sample_frame (-1342177280)]) (sample_debugger state.stepping 1)).2 =
      [output.response_success (sample_request "stackTrace" [("levels", json.int 20)])
        (body.stack_trace
          [{ source := some { name := none, path := none, sourceReference := -1342177280 },
             id := 0, column := 1, name := "?", line := 1 }] 1)] ∧
    ¬ (0 < (-1342177280 : Int)) ∧
    fits_in_mantissa 9007199254740992 = false ∧
    ensure_value_fits_in_mantissa 9007199254740992 = 9007199254740992 := by
  refine ⟨by decide, by decide, rfl, by decide, by decide, rfl⟩

/-- C8, amended: for a frame of an anonymous chunk that the stack trace reports, whose
buffer address passes the assertion of `ensure_value_fits_in_mantissa`, the
`sourceReference` that `request_stack_trace` records in `stack_` and sends for the frame
is the address itself, unchanged, and so is at most 9007199254740991. -/
theorem anonymous_source_reference (h : host) (req : json) (L : lua_State) (s : debugger_impl)
    (i : Nat) (entry : lua_Debug) (hi : L.frames.get? i = some entry)
    (ha : is_anonymous entry = true)
    (hlevels : (i : Int) < ((req.get "arguments").get "levels").GetInt)
    (hfits : fits_in_mantissa entry.source_ptr = true) :
    ∃ reference : Int,
      reference = entry.source_ptr ∧
      reference ≤ 9007199254740991 ∧
      ({ depth := (i : Int), reference := reference } : stack_entry) ∈
        (request_stack_trace h req L s).2.stack_ ∧
      ∃ frames total,
        (request_stack_trace h req L s).2.sent =
          s.sent ++ [⟨output.response_success req (body.stack_trace frames total), s.state_⟩] ∧
        (frames.get? i).map stack_frame.source =
          some (some { name := none, path := none, sourceReference := reference }) := by
  have hk : i < (((req.get "arguments").get "levels").GetInt - (0 : Nat)).toNat := by
    push_cast
    omega
  have htake : (L.frames.take (((req.get "arguments").get "levels").GetInt - (0 : Nat)).toNat)[i]?
      = some entry := by
    rw [List.getElem?_take_of_lt hk, ← List.get?_eq_getElem?, hi]
  refine ⟨entry.source_ptr, rfl, by simpa [fits_in_mantissa] using hfits, ?_, ?_⟩
  · have hentries := stack_trace_loop_entries h s.workingdir_ s.current_path
      ((req.get "arguments").get "levels").GetInt L.frames 0
    simp only [request_stack_trace, emit, Nat.cast_zero] at hentries ⊢
    rw [hentries]
    apply List.mem_append_right
    unfold anonymous_entries
    refine List.mem_map.mpr ⟨(i, entry), ?_, rfl⟩
    refine List.mem_filter.mpr ⟨?_, ha⟩
    exact List.mk_mem_enum_iff_getElem?.mpr (by simpa using htake)
  · have hframes := (stack_trace_loop_frames h s.workingdir_ s.current_path
      ((req.get "arguments").get "levels").GetInt L.frames 0).1
    refine ⟨_, _, rfl, ?_⟩
    simp only [Nat.cast_zero] at hframes
    rw [hframes, List.get?_eq_getElem?, List.getElem?_map, List.getElem?_enumFrom]
    simp only [Nat.cast_zero] at htake
    rw [htake]
    simp [(stack_frame_of_anonymous h s.workingdir_ s.current_path (i : Int) entry ha).1]

/-- Witness for C8: a stack trace of a VM whose only frame is an anonymous chunk with its
buffer at address 4096. -/
theorem anonymous_source_reference_witness :
    ∃ reference : Int,
      reference = (sample_frame 4096).source_ptr ∧
      reference ≤ 9007199254740991 ∧
      ({ depth := ((0 : Nat) : Int), reference := reference } : stack_entry) ∈
        (request_stack_trace sample_host (sample_request "stackTrace" [("levels", json.int 20)])
          (sample_vm 1 [sample_frame 4096]) (sample_debugger state.stepping 1)).2.stack_ ∧
      ∃ frames total,
        (request_stack_trace sample_host (sample_request "stackTrace" [("levels", json.int 20)])
          (sample_vm 1 [sample_frame 4096]) (sample_debugger state.stepping 1)).2.sent =
          (sample_debugger state.stepping 1).sent ++
            [⟨output.response_success (sample_request "stackTrace" [("levels", json.int 20)])
              (body.stack_trace frames total), (sample_debugger state.stepping 1).state_⟩] ∧
        (frames.get? 0).map stack_frame.source =
          some (some { name := none, path := none, sourceReference := reference }) :=
  anonymous_source_reference sample_host (sample_request "stackTrace" [("levels", json.int 20)])
    (sample_vm 1 [sample_frame 4096]) (sample_debugger state.stepping 1) 0 (sample_frame 4096)
    rfl (by decide) (by decide) (by decide)

/-- C10 as stated fails: two stackTrace requests in a row on a VM whose only frame is an
anonymous chunk leave two entries in `stack_`, the first of them left over from the
first request, while the second response reports one frame. -/
theorem request_stack_trace_twice_keeps_entries :
    (request_stack_trace sample_host (sample_request "stackTrace" [("levels", json.int 20)])
        (sample_vm 1 [sample_frame 4096])
        (request_stack_trace sample_host (sample_request "stackTrace" [("levels", json.int 20)])
          (sample_vm 1 [sample_frame 4096]) (sample_debugger state.stepping 1)).2).2.stack_ =
      [{ depth := 0, reference := 4096 }, { depth := 0, reference := 4096 }] := by
  decide

/-- C10, amended: `request_stack_trace` reports the frames of the first `levels` levels
and leaves in `stack_` what was there before, followed by one `(depth, reference)` entry
for each anonymous in-memory-source frame it reports, in frame order; it removes nothing. -/
theorem request_stack_trace_appends (h : host) (req : json) (L : lua_State)
    (s : debugger_impl) :
    (request_stack_trace h req L s).2.stack_ =
      s.stack_ ++
        anonymous_entries 0 (L.frames.take ((req.get "arguments").get "levels").GetInt.toNat) ∧
    (request_stack_trace h req L s).2.sent =
      s.sent ++ [⟨output.response_success req
        (body.stack_trace
          ((L.frames.take ((req.get "arguments").get "levels").GetInt.toNat).enum.map
            (fun p => (stack_frame_of h s.workingdir_ s.current_path (p.1 : Int) p.2).1))
          ((L.frames.take ((req.get "arguments").get "levels").GetInt.toNat).length : Int)),
        s.state_⟩] := by
  have hentries := stack_trace_loop_entries h s.workingdir_ s.current_path
    ((req.get "arguments").get "levels").GetInt L.frames 0
  have hframes := stack_trace_loop_frames h s.workingdir_ s.current_path
    ((req.get "arguments").get "levels").GetInt L.frames 0
  simp only [Nat.cast_zero, sub_zero, zero_add] at hentries hframes
  simp only [request_stack_trace, emit, hentries, hframes.1, hframes.2, List.enum]
  exact ⟨trivial, trivial⟩

end vscode
